import Mathlib

/-!
Verification development for the PerformanceTesting SBOM generator.

The Python sources (`SBOM_Generator.py`, `generate_parallel_sboms.py`) are
shallowly embedded below.  Python's ambient effects are made explicit:

* the process-global `random` module is modelled by a `RandState` carrying an
  abstract stream of natural numbers; each call to a `random` primitive
  consumes one stream value, and `random.randint a b` maps the consumed value
  into `[a, b]` by `a + n % (b - a + 1)`, so every draw is in range and every
  value in range is reachable;
* `datetime.now(...)` and `uuid.uuid4()` are passed in as explicit string
  parameters (`now`, `docUuid`);
* the external `hashlib` digests are modelled by concrete pure functions that
  have the same output format as the library functions (lowercase hex of the
  documented width); their compression internals are external library code and
  are not re-implemented here;
* the file system and subprocess calls of the batch orchestrator are modelled
  by an explicit per-job environment record.
-/

/-- Abstract state of Python's global `random` module: an unbounded stream of
natural numbers together with a cursor. -/
structure RandState where
  stream : Nat → Nat
  idx : Nat

/-- Consume one value from the random stream. -/
def next (g : RandState) : Nat × RandState :=
  (g.stream g.idx, { g with idx := g.idx + 1 })

/-- Model of Python `random.randint a b`: an integer drawn from `[a, b]`
(always called with `a ≤ b` in the embedded code). -/
def randint (a b : Nat) (g : RandState) : Nat × RandState :=
  let r := next g
  (a + r.1 % (b - a + 1), r.2)

/-- Model of Python `random.choice` on a list of strings (all embedded call
sites pass a non-empty list; the default is never returned for those). -/
def pychoice (l : List String) (g : RandState) : String × RandState :=
  let r := next g
  (l.getD (r.1 % l.length) "", r.2)

/-- The sixteen lowercase hexadecimal digit characters. -/
def hexDigitChars : List Char :=
  "0123456789abcdef".data

/-- Hex digit character of `n % 16`. -/
def hexDigit (n : Nat) : Char :=
  hexDigitChars.get ⟨n % 16, by
    show n % 16 < 16
    exact Nat.mod_lt _ (by decide)⟩

/-- Render the low `len` nibbles of `n` as a big-endian hex string of exactly
`len` characters. -/
def natToHex (n len : Nat) : String :=
  String.mk ((List.range len).map (fun i => hexDigit (n / 16 ^ (len - 1 - i))))

/-- Deterministic seed extracted from a string (models feeding the UTF-8 bytes
of the string into an external digest). -/
def strSeed (s : String) : Nat :=
  s.data.foldl (fun a c => a * 131 + c.toNat + 17) 216613

/-- One round of integer mixing used by the digest models. -/
def hashMix (seed : Nat) : Nat :=
  seed * 6364136223846793005 + 1442695040888963407

/-- Model of the external `hashlib.sha256(data).hexdigest()`: a deterministic
pure function of the input producing exactly 64 lowercase hex characters, the
format of a real SHA-256 hex digest.  The compression function itself is
external library code. -/
def sha256_hexdigest (s : String) : String :=
  natToHex (hashMix (hashMix (strSeed s))) 64

/-- Model of the external `hashlib.md5(data).hexdigest()`: a deterministic
pure function of the input producing exactly 32 lowercase hex characters, the
format of a real MD5 hex digest. -/
def md5_hexdigest (s : String) : String :=
  natToHex (hashMix (strSeed s + 9576890767)) 32

/-- Model of Python string slicing `s[:n]`. -/
def strTake (s : String) (n : Nat) : String :=
  String.mk (s.data.take n)

/-- Model of Python `name.split(":")` on the character list of a string. -/
def splitColonChars : List Char → List (List Char)
  | [] => [[]]
  | c :: rest =>
    let r := splitColonChars rest
    if c = ':' then [] :: r
    else (c :: r.headD []) :: r.tail

/-- Model of Python `name.split(":")`. -/
def splitColon (s : String) : List String :=
  (splitColonChars s.data).map String.mk

/-- Line 13 of `SBOM_Generator.py`: the license table. -/
def LICENSES : List String :=
  ["MIT", "Apache-2.0", "GPL-3.0", "GPL-2.0", "LGPL-2.1", "BSD-3-Clause", "BSD-2-Clause",
   "MPL-2.0", "EPL-2.0", "AGPL-3.0", "Unlicense", "ISC", "WTFPL", "CC0-1.0",
   "CC-BY-4.0", "CC-BY-SA-4.0", "Artistic-2.0", "Proprietary", "Custom"]

/-- Line 20 of `SBOM_Generator.py`: the ecosystem catalog, as an association
list preserving Python dict insertion order. -/
def ECOSYSTEMS : List (String × List String) :=
  [("npm", ["react", "axios", "lodash", "express", "moment", "chalk", "redux", "vue", "webpack", "jquery"]),
   ("maven", ["org.springframework:spring-core", "com.fasterxml.jackson.core:jackson-databind",
              "org.apache.commons:commons-lang3", "org.hibernate:hibernate-core",
              "com.google.guava:guava", "junit:junit", "log4j:log4j", "ch.qos.logback:logback-classic"]),
   ("pypi", ["requests", "numpy", "pandas", "flask", "django", "pytest", "scikit-learn",
             "tensorflow", "sqlalchemy", "beautifulsoup4", "matplotlib", "pillow"]),
   ("golang", ["github.com/stretchr/testify", "github.com/gin-gonic/gin", "github.com/gorilla/mux",
               "github.com/spf13/cobra", "github.com/prometheus/client_golang", "go.uber.org/zap"]),
   ("nuget", ["Newtonsoft.Json", "Microsoft.AspNetCore", "Serilog", "AutoMapper",
              "Dapper", "Microsoft.EntityFrameworkCore", "xunit", "NLog"])]

/-- Python `list(ECOSYSTEMS.keys())`. -/
def ecoKeys : List String := ECOSYSTEMS.map Prod.fst

/-- Python `ECOSYSTEMS[ecosystem]` for the keys of the catalog. -/
def ecoNames (e : String) : List String := (ECOSYSTEMS.lookup e).getD []

/-- Lines 47-61: `generate_purl`. -/
def generate_purl (ecosystem name version : String) : String :=
  if ecosystem = "maven" then
    let parts := splitColon name
    "pkg:maven/" ++ parts.headD "" ++ "/" ++ parts.getD 1 "" ++ "@" ++ version
  else if ecosystem = "npm" then
    "pkg:npm/" ++ name ++ "@" ++ version
  else if ecosystem = "pypi" then
    "pkg:pypi/" ++ name ++ "@" ++ version
  else if ecosystem = "golang" then
    "pkg:golang/" ++ name ++ "@" ++ version
  else if ecosystem = "nuget" then
    "pkg:nuget/" ++ name ++ "@" ++ version
  else
    "pkg:generic/" ++ name ++ "@" ++ version

/-- Lines 79-83: `generate_cpe`.  `":" in name` is modelled by the colon split
having more than one part.  The `ecosystem` parameter is unused, as in the
source. -/
def generate_cpe (ecosystem name version : String) : String :=
  let parts := splitColon name
  let vendor := if parts.length > 1 then parts.headD name else name
  let product := if parts.length > 1 then parts.getD 1 name else name
  "cpe:2.3:a:" ++ vendor ++ ":" ++ product ++ ":" ++ version ++ ":*:*:*:*:*:*:*"

/-- Lines 63-66: `generate_checksum`.  `str(random.random())` is modelled by
rendering one drawn stream value after a "0." prefix (the shape of a Python
float repr); the digest of that string is then taken. -/
def generate_checksum (g : RandState) : String × RandState :=
  let r := next g
  (sha256_hexdigest ("0." ++ toString r.1), r.2)

/-- Lines 68-77: `generate_version`.  All five f-string templates are
evaluated eagerly when the Python list literal is built, so all sixteen
`randint` calls consume randomness before the final `random.choice`. -/
def generate_version (g : RandState) : String × RandState :=
  let a := randint 0 10 g
  let b := randint 0 20 a.2
  let c := randint 0 99 b.2
  let p1 := toString a.1 ++ "." ++ toString b.1 ++ "." ++ toString c.1
  let d := randint 0 5 c.2
  let e := randint 0 15 d.2
  let p2 := toString d.1 ++ "." ++ toString e.1
  let f := randint 1 3 e.2
  let h := randint 0 10 f.2
  let i := randint 0 30 h.2
  let j := randint 1 5 i.2
  let p3 := toString f.1 ++ "." ++ toString h.1 ++ "." ++ toString i.1 ++ "-beta." ++ toString j.1
  let k := randint 0 2 j.2
  let l := randint 0 9 k.2
  let m := randint 0 20 l.2
  let n := randint 1 3 m.2
  let p4 := toString k.1 ++ "." ++ toString l.1 ++ "." ++ toString m.1 ++ "-rc." ++ toString n.1
  let o := randint 20 23 n.2
  let p := randint 1 12 o.2
  let q := randint 1 30 p.2
  let p5 := toString o.1 ++ "." ++ toString p.1 ++ "." ++ toString q.1
  pychoice [p1, p2, p3, p4, p5] q.2

/-- The record returned by `get_random_component` (lines 127-133). -/
structure CompInfo where
  ecosystem : String
  name : String
  version : String
  purl : String
  cpe : String
deriving DecidableEq, Repr

/-- Lines 112-114 and 120-121: draw an `(ecosystem, name)` pair from the
catalog. -/
def pick_pair (g : RandState) : (String × String) × RandState :=
  let e := pychoice ecoKeys g
  let n := pychoice (ecoNames e.1) e.2
  ((e.1, n.1), n.2)

/-- Lines 117-122: the bounded uniqueness-retry loop.  `fuel` counts the
remaining retries (`10 - attempts`); when it reaches zero the current pair is
accepted even if it is already in `existing`, exactly as the Python loop exits
once `attempts` reaches 10. -/
def uniq_retry (existing : List String) (e n : String) (fuel : Nat) (g : RandState) :
    (String × String) × RandState :=
  match fuel with
  | 0 => ((e, n), g)
  | fuel' + 1 =>
    if (e ++ ":" ++ n) ∈ existing then
      let p := pick_pair g
      uniq_retry existing p.1.1 p.1.2 fuel' p.2
    else ((e, n), g)

/-- Lines 107-133: `get_random_component`.  The mutation of the
`existing_components` list is modelled by returning the extended list. -/
def get_random_component (existing : List String) (complexity_level : Nat) (g : RandState) :
    (CompInfo × List String) × RandState :=
  let p0 := pick_pair g
  let p := if complexity_level > 1 then uniq_retry existing p0.1.1 p0.1.2 10 p0.2 else p0
  let v := generate_version p.2
  (({ ecosystem := p.1.1, name := p.1.2, version := v.1,
      purl := generate_purl p.1.1 p.1.2 v.1,
      cpe := generate_cpe p.1.1 p.1.2 v.1 },
    existing ++ [p.1.1 ++ ":" ++ p.1.2]), v.2)

/-- A checksum entry of an SPDX package (lines 177-180). -/
structure SpdxChecksum where
  algorithm : String
  checksumValue : String
deriving DecidableEq, Repr

/-- An external reference of an SPDX package (lines 146-165). -/
structure SpdxExternalRef where
  referenceCategory : String
  referenceType : String
  referenceLocator : String
deriving DecidableEq, Repr

/-- One SPDX package record (lines 167-187).  The fields added only at
complexity level 2 and above are modelled as `Option`s: `none` means the key
is absent from the Python dict. -/
structure SpdxPackage where
  SPDXID : String
  name : String
  versionInfo : String
  supplier : String
  licenseConcluded : String
  licenseDeclared : String
  downloadLocation : String
  filesAnalyzed : Bool
  externalRefs : List SpdxExternalRef
  checksums : List SpdxChecksum
  description : Option String
  copyrightText : Option String
  attributionTexts : Option (List String)
deriving DecidableEq, Repr

/-- One SPDX relationship record (lines 199-203). -/
structure SpdxRelationship where
  spdxElementId : String
  relatedSpdxElement : String
  relationshipType : String
deriving DecidableEq, Repr

/-- The assembled SPDX document (lines 206-224).  `relationships = none`
models the absence of the `relationships` key. -/
structure SpdxDoc where
  spdxVersion : String
  dataLicense : String
  SPDXID : String
  name : String
  documentNamespace : String
  created : String
  creators : List String
  creationComment : String
  packages : List SpdxPackage
  relationships : Option (List SpdxRelationship)
deriving DecidableEq, Repr

/-- Lines 142-189: build one SPDX package.  Random draws occur in Python
evaluation order: component synthesis, supplier choice, two license choices,
checksum, and (at complexity 2 and above) the copyright year. -/
def spdxMakePackage (complexity i : Nat) (existing : List String) (g : RandState) :
    SpdxPackage × List String × RandState :=
  let r1 := get_random_component existing complexity g
  let info := r1.1.1
  let refs :=
    [({ referenceCategory := "PACKAGE-MANAGER", referenceType := "purl",
        referenceLocator := info.purl } : SpdxExternalRef)] ++
    (if complexity > 1 then
      [({ referenceCategory := "SECURITY", referenceType := "cpe23Type",
          referenceLocator := info.cpe } : SpdxExternalRef),
       ({ referenceCategory := "OTHER", referenceType := "website",
          referenceLocator := "https://" ++ info.ecosystem ++ ".example.org/package/" ++ info.name } : SpdxExternalRef)]
     else [])
  let sup := pychoice ["Example Inc", "Open Source Foundation", "Tech Corp", "Community Project"] r1.2
  let lc := pychoice LICENSES sup.2
  let ld := pychoice LICENSES lc.2
  let cs := generate_checksum ld.2
  let yr := randint 2010 2023 cs.2
  let gOut := if complexity ≥ 2 then yr.2 else cs.2
  ({ SPDXID := "SPDXRef-Package-" ++ toString i,
     name := info.name,
     versionInfo := info.version,
     supplier := "Organization: " ++ sup.1,
     licenseConcluded := lc.1,
     licenseDeclared := ld.1,
     downloadLocation := "https://" ++ info.ecosystem ++ ".example.org/download/" ++ info.name ++ "/" ++ info.version,
     filesAnalyzed := false,
     externalRefs := refs,
     checksums := [{ algorithm := "SHA256", checksumValue := cs.1 }],
     description := if complexity ≥ 2 then
       some ("This is a synthetic " ++ info.ecosystem ++ " package for " ++ info.name ++ ".") else none,
     copyrightText := if complexity ≥ 2 then
       some ("Copyright " ++ toString yr.1 ++ " Example Organization") else none,
     attributionTexts := if complexity ≥ 2 then
       some ["Attribution for " ++ info.name ++ " goes to its original authors."] else none },
   r1.1.2, gOut)

/-- The first pass of `generate_spdx_sbom` (lines 142-189): build packages for
indices `i, i+1, ...` while `remaining` counts down. -/
def spdxCompLoop (complexity i remaining : Nat) (existing : List String) (g : RandState) :
    List SpdxPackage × List String × RandState :=
  match remaining with
  | 0 => ([], existing, g)
  | r + 1 =>
    let step := spdxMakePackage complexity i existing g
    let rest := spdxCompLoop complexity (i + 1) r step.2.1 step.2.2
    (step.1 :: rest.1, rest.2)

/-- Line 196-198 inner loop: draw `d` dependency targets for source `i`, each
a `randint 0 (i-1)`. -/
def drawTargets (i d : Nat) (g : RandState) : List Nat × RandState :=
  match d with
  | 0 => ([], g)
  | d' + 1 =>
    let t := randint 0 (i - 1) g
    let rest := drawTargets i d' t.2
    (t.1 :: rest.1, rest.2)

/-- Line 196: `dependency_count = random.randint(1, min(3, i)) if
complexity_level > 2 else 1`. -/
def depCount (complexity i : Nat) (g : RandState) : Nat × RandState :=
  if complexity > 2 then randint 1 (min 3 i) g else (1, g)

/-- Lines 194-204: the SPDX second pass over sources `i, i+1, ...`
(`remaining` counts down), producing `(source, target)` index pairs. -/
def relLoop (complexity i remaining : Nat) (g : RandState) : List (Nat × Nat) × RandState :=
  match remaining with
  | 0 => ([], g)
  | r + 1 =>
    let dc := depCount complexity i g
    let ts := drawTargets i dc.1 dc.2
    let rest := relLoop complexity (i + 1) r ts.2
    (ts.1.map (fun t => (i, t)) ++ rest.1, rest.2)

/-- Lines 191-204: the `(source, target)` index pairs of the SPDX
relationships, produced only for `complexity_level > 1` and
`component_count > 1`. -/
def spdxRelPairs (component_count complexity_level : Nat) (g : RandState) :
    List (Nat × Nat) × RandState :=
  if complexity_level > 1 ∧ component_count > 1 then
    relLoop complexity_level 1 (component_count - 1) g
  else ([], g)

/-- Lines 199-203: the relationship record built from a `(source, target)`
index pair. -/
def mkSpdxRel (p : Nat × Nat) : SpdxRelationship :=
  { spdxElementId := "SPDXRef-Package-" ++ toString p.1,
    relatedSpdxElement := "SPDXRef-Package-" ++ toString p.2,
    relationshipType := "DEPENDS_ON" }

/-- Lines 135-226: `generate_spdx_sbom`.  `now` models
`datetime.now(timezone.utc).isoformat()` and `docUuid` models
`str(uuid.uuid4())`. -/
def generate_spdx_sbom (component_count complexity_level : Nat) (now docUuid : String)
    (g : RandState) : SpdxDoc × RandState :=
  let comps := spdxCompLoop complexity_level 0 component_count [] g
  let rels := spdxRelPairs component_count complexity_level comps.2.2
  ({ spdxVersion := "SPDX-2.2",
     dataLicense := "CC0-1.0",
     SPDXID := "SPDXRef-DOCUMENT",
     name := "Synthetic SPDX SBOM",
     documentNamespace := "http://spdx.org/spdxdocs/synthetic-sbom-" ++ docUuid,
     created := now,
     creators := ["Tool: SBOM-Generator", "Organization: Performance Testing Team"],
     creationComment := "This SBOM was generated for performance testing purposes",
     packages := comps.1,
     relationships :=
       if complexity_level > 1 ∧ ¬rels.1.isEmpty then some (rels.1.map mkSpdxRel) else none },
   rels.2)

/-- A CycloneDX hash entry (lines 280-283). -/
structure CdxHash where
  alg : String
  content : String
deriving DecidableEq, Repr

/-- A CycloneDX external reference (lines 276-287). -/
structure CdxExtRef where
  url : String
  hashes : List CdxHash
  type : String
deriving DecidableEq, Repr

/-- A CycloneDX license entry (lines 271-273). -/
structure CdxLicense where
  id : String
deriving DecidableEq, Repr

/-- A CycloneDX property entry (lines 290-319). -/
structure CdxProperty where
  name : String
  value : String
deriving DecidableEq, Repr

/-- One CycloneDX component (lines 254-321).  `group = none` and
`licenses = none` model the absence of those keys. -/
structure CdxComponent where
  bomRef : String
  type : String
  name : String
  version : String
  purl : String
  group : Option String
  cpe : String
  licenses : Option (List CdxLicense)
  externalReferences : List CdxExtRef
  properties : List CdxProperty
deriving DecidableEq, Repr

/-- One entry of the CycloneDX `dependencies` array (lines 335-338). -/
structure CdxDependency where
  ref : String
  dependsOn : List String
deriving DecidableEq, Repr

/-- The tool descriptor inside CycloneDX metadata (lines 356-361). -/
structure CdxTool where
  type : String
  author : String
  name : String
  version : String
deriving DecidableEq, Repr

/-- The root component inside CycloneDX metadata (lines 364-369). -/
structure CdxRootComponent where
  bomRef : String
  type : String
  name : String
  version : String
deriving DecidableEq, Repr

/-- The CycloneDX metadata object (lines 352-370).  In the JSON document,
`tools` is the object with the single key `components` holding the tool
list. -/
structure CdxMetadata where
  timestamp : String
  toolComponents : List CdxTool
  component : CdxRootComponent
deriving DecidableEq, Repr

/-- The assembled CycloneDX document (lines 346-376).  `dependencies = none`
models the absence of the `dependencies` key. -/
structure CdxDoc where
  schema : String
  bomFormat : String
  specVersion : String
  serialNumber : String
  version : Nat
  metadata : CdxMetadata
  components : List CdxComponent
  dependencies : Option (List CdxDependency)
deriving DecidableEq, Repr

/-- Lines 235-321: build one CycloneDX component.  Random draws in Python
evaluation order: component synthesis, license choice (complexity 2 and
above), checksum. -/
def cdxMakeComponent (complexity : Nat) (existing : List String) (g : RandState) :
    CdxComponent × List String × RandState :=
  let r1 := get_random_component existing complexity g
  let info := r1.1.1
  let parts := splitColon info.name
  let mavenColon := info.ecosystem = "maven" ∧ parts.length > 1
  let group := if mavenColon then some (parts.headD "") else none
  let nm := if mavenColon then parts.getD 1 "" else info.name
  let package_id := strTake (md5_hexdigest (info.name ++ ":" ++ info.version)) 16
  let bom_ref := info.purl ++ "?package-id=" ++ package_id
  let lp := pychoice LICENSES r1.2
  let g1 := if complexity ≥ 2 then lp.2 else r1.2
  let cs := generate_checksum g1
  ({ bomRef := bom_ref,
     type := "library",
     name := nm,
     version := info.version,
     purl := info.purl,
     group := group,
     cpe := info.cpe,
     licenses := if complexity ≥ 2 then some [{ id := lp.1 }] else none,
     externalReferences := [{ url := "", hashes := [{ alg := "SHA-1", content := cs.1 }], type := "build-meta" }],
     properties :=
       [{ name := "syft:package:foundBy", value := info.ecosystem ++ "-cataloger" },
        { name := "syft:package:language",
          value := if info.ecosystem ≠ "maven" then info.ecosystem else "java" },
        { name := "syft:package:type", value := info.ecosystem },
        { name := "syft:package:metadataType", value := info.ecosystem },
        { name := "syft:cpe23", value := info.cpe },
        { name := "syft:location:0:path",
          value := "/packages/" ++ info.ecosystem ++ "/" ++ info.name ++ "/" ++ info.version }] },
   r1.1.2, cs.2)

/-- The first pass of `generate_cyclonedx_sbom` (lines 235-321). -/
def cdxCompLoop (complexity remaining : Nat) (existing : List String) (g : RandState) :
    List CdxComponent × List String × RandState :=
  match remaining with
  | 0 => ([], existing, g)
  | r + 1 =>
    let step := cdxMakeComponent complexity existing g
    let rest := cdxCompLoop complexity r step.2.1 step.2.2
    (step.1 :: rest.1, rest.2)

/-- Lines 325-338: the CycloneDX second pass over sources `i, i+1, ...`,
producing `(source, targets)` index groups; a group is appended only when its
target list is non-empty (`if deps:`). -/
def cdxDepLoop (complexity i remaining : Nat) (g : RandState) :
    List (Nat × List Nat) × RandState :=
  match remaining with
  | 0 => ([], g)
  | r + 1 =>
    let dc := depCount complexity i g
    let ts := drawTargets i dc.1 dc.2
    let rest := cdxDepLoop complexity (i + 1) r ts.2
    ((if ts.1.isEmpty then rest.1 else (i, ts.1) :: rest.1), rest.2)

/-- Lines 323-338: the `(source, targets)` index groups of the CycloneDX
dependencies; the loop `for i in range(component_count)` with its `if i > 0`
guard visits sources `1 .. component_count - 1`. -/
def cdxDepPairs (component_count complexity_level : Nat) (g : RandState) :
    List (Nat × List Nat) × RandState :=
  if complexity_level > 1 ∧ component_count > 1 then
    cdxDepLoop complexity_level 1 (component_count - 1) g
  else ([], g)

/-- A default component for modelling Python list indexing
`components[idx]["bom-ref"]`; every embedded access is in range, so the
default is never returned. -/
def cdxDefault : CdxComponent :=
  { bomRef := "", type := "", name := "", version := "", purl := "", group := none,
    cpe := "", licenses := none, externalReferences := [], properties := [] }

/-- Python `components[i]["bom-ref"]`. -/
def bomRefAt (comps : List CdxComponent) (i : Nat) : String :=
  (comps.getD i cdxDefault).bomRef

/-- Lines 228-378: `generate_cyclonedx_sbom`.  `now` models
`datetime.now(timezone.utc).strftime(...)` and `docUuid` models
`uuid.uuid4()`. -/
def generate_cyclonedx_sbom (component_count complexity_level : Nat) (now docUuid : String)
    (g : RandState) : CdxDoc × RandState :=
  let comps := cdxCompLoop complexity_level component_count [] g
  let deps := cdxDepPairs component_count complexity_level comps.2.2
  let depList := deps.1.map (fun p =>
    ({ ref := bomRefAt comps.1 p.1, dependsOn := p.2.map (bomRefAt comps.1) } : CdxDependency))
  ({ schema := "http://cyclonedx.org/schema/bom-1.6.schema.json",
     bomFormat := "CycloneDX",
     specVersion := "1.6",
     serialNumber := "urn:uuid:" ++ docUuid,
     version := 1,
     metadata :=
       { timestamp := now,
         toolComponents := [{ type := "application", author := "Performance Testing Team",
                              name := "SBOM-Generator", version := "2.0.0" }],
         component := { bomRef := strTake (md5_hexdigest "root-component") 16,
                        type := "application", name := "Synthetic Application",
                        version := "1.0.0" } },
     components := comps.1,
     dependencies :=
       if complexity_level > 1 ∧ ¬depList.isEmpty then some depList else none },
   deps.2)

/-- A JSON value, the dynamic data the Python dicts hold.  Objects keep their
key insertion order, as Python dicts do. -/
inductive Json where
  | null
  | str (s : String)
  | num (n : Nat)
  | bool (b : Bool)
  | arr (elems : List Json)
  | obj (fields : List (String × Json))
deriving Repr

/-- Python `d[k]` absent / `k in d` test: field lookup on an object. -/
def Json.getField : Json → String → Option Json
  | .obj kvs, k => kvs.lookup k
  | _, _ => none

/-- Python `d.get(k, default)`. -/
def Json.getFieldD (j : Json) (k : String) (d : Json) : Json :=
  (j.getField k).getD d

/-- Python `for x in j`: lists iterate over their elements, dicts over their
keys.  Other cases are never iterated by the embedded code. -/
def jsonIter : Json → List Json
  | .arr xs => xs
  | .obj kvs => kvs.map (fun kv => Json.str kv.1)
  | _ => []

/-- Python `x.items()`: defined for dicts, an `AttributeError` otherwise.  The
embedded projector reaches the string case. -/
def jsonItems : Json → Except String (List (String × Json))
  | .obj kvs => .ok kvs
  | .str _ => .error "str object has no attribute items"
  | _ => .error "object has no attribute items"

/-- Python `d[k]` on a dict: `KeyError` when the key is absent. -/
def jsonGetItem (j : Json) (k : String) : Except String Json :=
  match j.getField k with
  | some v => .ok v
  | none => .error ("KeyError: " ++ k)

/-- Python `str(value)` for the atoms that occur in the embedded documents.
Containers are never rendered on the executed paths. -/
def pyStr : Json → String
  | .str s => s
  | .num n => toString n
  | .bool b => if b then "True" else "False"
  | .null => "None"
  | .arr _ => "<list>"
  | .obj _ => "<dict>"

/-- The JSON object for one CycloneDX component, in the key insertion order of
lines 254-319. -/
def cdxCompToJson (comp : CdxComponent) : Json :=
  Json.obj
    ([("bom-ref", Json.str comp.bomRef),
      ("type", Json.str comp.type),
      ("name", Json.str comp.name),
      ("version", Json.str comp.version),
      ("purl", Json.str comp.purl)] ++
     (match comp.group with
      | some gr => [("group", Json.str gr)]
      | none => []) ++
     [("cpe", Json.str comp.cpe)] ++
     (match comp.licenses with
      | some ls =>
        [("licenses", Json.arr (ls.map (fun l =>
          Json.obj [("license", Json.obj [("id", Json.str l.id)])])))]
      | none => []) ++
     [("externalReferences", Json.arr (comp.externalReferences.map (fun er =>
        Json.obj [("url", Json.str er.url),
                  ("hashes", Json.arr (er.hashes.map (fun hsh =>
                    Json.obj [("alg", Json.str hsh.alg), ("content", Json.str hsh.content)]))),
                  ("type", Json.str er.type)]))),
      ("properties", Json.arr (comp.properties.map (fun p =>
        Json.obj [("name", Json.str p.name), ("value", Json.str p.value)])))])

/-- The JSON object for the whole CycloneDX document, in the key insertion
order of lines 346-376. -/
def cdxToJson (doc : CdxDoc) : Json :=
  Json.obj
    ([("$schema", Json.str doc.schema),
      ("bomFormat", Json.str doc.bomFormat),
      ("specVersion", Json.str doc.specVersion),
      ("serialNumber", Json.str doc.serialNumber),
      ("version", Json.num doc.version),
      ("metadata", Json.obj
        [("timestamp", Json.str doc.metadata.timestamp),
         ("tools", Json.obj
           [("components", Json.arr (doc.metadata.toolComponents.map (fun t =>
              Json.obj [("type", Json.str t.type), ("author", Json.str t.author),
                        ("name", Json.str t.name), ("version", Json.str t.version)])))]),
         ("component", Json.obj
           [("bom-ref", Json.str doc.metadata.component.bomRef),
            ("type", Json.str doc.metadata.component.type),
            ("name", Json.str doc.metadata.component.name),
            ("version", Json.str doc.metadata.component.version)])]),
      ("components", Json.arr (doc.components.map cdxCompToJson))] ++
     (match doc.dependencies with
      | some ds =>
        [("dependencies", Json.arr (ds.map (fun d =>
          Json.obj [("ref", Json.str d.ref),
                    ("dependsOn", Json.arr (d.dependsOn.map Json.str))])))]
      | none => []))

/-- A node of the produced XML tree: an element with attributes and children,
or a text node. -/
inductive XmlNode where
  | elem (tag : String) (attrs : List (String × String)) (children : List XmlNode)
  | text (s : String)
deriving Repr

/-- Lines 467-510: `create_component_element`.  The `hashes` branch indexes
`hash_obj["alg"]` and `hash_obj["content"]` without a guard, so it can raise
`KeyError`; all other accesses are guarded. -/
def create_component_element (component : Json) : Except String XmlNode := do
  let attrs0 := [("type", pyStr (component.getFieldD "type" (Json.str "")))]
  let attrs :=
    match component.getField "bom-ref" with
    | some v => attrs0 ++ [("bom-ref", pyStr v)]
    | none => attrs0
  let textKids := ["name", "version", "description", "purl", "cpe"].filterMap (fun k =>
    match component.getField k with
    | some v => some (XmlNode.elem k [] [XmlNode.text (pyStr v)])
    | none => none)
  let licKids :=
    match component.getField "licenses" with
    | some ls =>
      [XmlNode.elem "licenses" [] ((jsonIter ls).map (fun lo =>
        XmlNode.elem "license" []
          (match lo.getField "license" with
           | some l =>
             (match l.getField "id" with
              | some idv => [XmlNode.elem "id" [] [XmlNode.text (pyStr idv)]]
              | none => [])
           | none => [])))]
    | none => []
  let hashKids ←
    match component.getField "hashes" with
    | some hs => do
      let inner ← (jsonIter hs).mapM (fun ho => do
        let alg ← jsonGetItem ho "alg"
        let content ← jsonGetItem ho "content"
        pure (XmlNode.elem "hash" [("alg", pyStr alg)] [XmlNode.text (pyStr content)]))
      pure [XmlNode.elem "hashes" [] inner]
    | none => pure ([] : List XmlNode)
  pure (XmlNode.elem "component" attrs (textKids ++ licKids ++ hashKids))

/-- Lines 398-465: `cyclonedx_json_to_xml`, producing the root `bom` element.
The `tools` loop iterates `metadata["tools"]` and calls `.items()` on each
iterate; when `tools` is a dict the iterates are its key strings and the call
raises. -/
def cyclonedx_json_to_xml (sbom : Json) : Except String XmlNode := do
  let attrs := [("xmlns", "http://cyclonedx.org/schema/bom/1.4"),
                ("serialNumber", pyStr (sbom.getFieldD "serialNumber" (Json.str ""))),
                ("version", pyStr (sbom.getFieldD "version" (Json.str "1")))]
  let metaKids ←
    match sbom.getField "metadata" with
    | some md => do
      let tsKids :=
        match md.getField "timestamp" with
        | some ts => [XmlNode.elem "timestamp" [] [XmlNode.text (pyStr ts)]]
        | none => []
      let toolKids ←
        match md.getField "tools" with
        | some tools => do
          let toolElems ← (jsonIter tools).mapM (fun tool => do
            let items ← jsonItems tool
            pure (XmlNode.elem "tool" [] (items.map (fun kv =>
              XmlNode.elem kv.1 [] [XmlNode.text (pyStr kv.2)]))))
          pure [XmlNode.elem "tools" [] toolElems]
        | none => pure ([] : List XmlNode)
      let compKids ←
        match md.getField "component" with
        | some c => do
          let ce ← create_component_element c
          pure [ce]
        | none => pure ([] : List XmlNode)
      pure [XmlNode.elem "metadata" [] (tsKids ++ toolKids ++ compKids)]
    | none => pure ([] : List XmlNode)
  let compElems ← (jsonIter (sbom.getFieldD "components" (Json.arr []))).mapM create_component_element
  let depKids ←
    match sbom.getField "dependencies" with
    | some deps => do
      let depElems ← (jsonIter deps).mapM (fun dep => do
        let r ← jsonGetItem dep "ref"
        let dOn :=
          match dep.getField "dependsOn" with
          | some ds => (jsonIter ds).map (fun d =>
              XmlNode.elem "dependsOn" [] [XmlNode.text (pyStr d)])
          | none => []
        pure (XmlNode.elem "dependency" [("ref", pyStr r)] dOn))
      pure [XmlNode.elem "dependencies" [] depElems]
    | none => pure ([] : List XmlNode)
  pure (XmlNode.elem "bom" attrs
    (metaKids ++ [XmlNode.elem "components" [] compElems] ++ depKids))

/-- A document value passed to `save_sbom`: one of the two assembled models. -/
inductive SbomVal where
  | spdx (d : SpdxDoc)
  | cdx (d : CdxDoc)

/-- Python `"bomFormat" in sbom`: the SPDX dict has no such key, the CycloneDX
dict always has it. -/
def hasBomFormat : SbomVal → Bool
  | .spdx _ => false
  | .cdx _ => true

/-- Model of Python `os.path.join a b` for relative second components. -/
def pathJoin (a b : String) : String :=
  if a = "" then b
  else if a.data.getLast? = some '/' then a ++ b
  else a ++ "/" ++ b

/-- Lines 380-396: `save_sbom`.  Success carries the file path written; an
`Except.error` models the exception propagated to the caller (the projector
crash for XML, or the `ValueError` of the final branch).  File-system writes
themselves are external effects. -/
def save_sbom (sbom : SbomVal) (filename format_type : String) : Except String String :=
  let filepath := pathJoin "sboms" filename
  if format_type = "json" then .ok filepath
  else if format_type = "xml" ∧ hasBomFormat sbom then
    match sbom with
    | .cdx d => (cyclonedx_json_to_xml (cdxToJson d)).map (fun _ => filepath)
    | .spdx _ => .error "unreachable: bomFormat absent"
  else .error ("Unsupported format: " ++ format_type)

/-- The parsed command-line arguments of the synthetic CLI (lines 514-523). -/
structure Args where
  format : String
  count : Nat
  complexity : Nat
  output : String

/-- Lines 529-533: the output format after the XML-with-SPDX fallback. -/
def effective_output (args : Args) : String :=
  if args.output = "xml" ∧ args.format = "spdx" then "json" else args.output

/-- Lines 535-545: the body of the `try` block — generate the document and
save it.  Returns the saved file path, or the exception text. -/
def run_generation (args : Args) (output_format now docUuid : String) (g : RandState) :
    Except String String :=
  if args.format = "spdx" then
    let doc := generate_spdx_sbom args.count args.complexity now docUuid g
    save_sbom (.spdx doc.1)
      ("synthetic_spdx_" ++ toString args.count ++ "_c" ++ toString args.complexity ++ "." ++ output_format)
      output_format
  else
    let doc := generate_cyclonedx_sbom args.count args.complexity now docUuid g
    save_sbom (.cdx doc.1)
      ("synthetic_cyclonedx_" ++ toString args.count ++ "_c" ++ toString args.complexity ++ "." ++ output_format)
      output_format

/-- The observable outcome of one CLI run. -/
structure MainOutcome where
  warned : Bool
  used_output : String
  printed_error : Option String
  saved_path : Option String
  exit_code : Nat
deriving DecidableEq, Repr

/-- Lines 513-547: the `__main__` block.  The `except Exception` handler
prints the error and falls through, so the interpreter exits with code 0 on
every path. -/
def main_run (args : Args) (now docUuid : String) (g : RandState) : MainOutcome :=
  let fallback := args.output = "xml" ∧ args.format = "spdx"
  match run_generation args (effective_output args) now docUuid g with
  | .ok path =>
    { warned := fallback, used_output := effective_output args,
      printed_error := none, saved_path := some path, exit_code := 0 }
  | .error e =>
    { warned := fallback, used_output := effective_output args,
      printed_error := some ("Error generating SBOM: " ++ e), saved_path := none,
      exit_code := 0 }

/-- Lines 118-121 of `generate_parallel_sboms.py`: `generate_unique_filename`. -/
def generate_unique_filename (output_dir sbom_format : String)
    (component_count sequential_number : Nat) : String :=
  pathJoin output_dir
    ("sbom_" ++ sbom_format ++ "_" ++ toString component_count ++ "_" ++
     toString sequential_number ++ ".json")

/-- The external effects one orchestrator job can observe: outcomes of the two
subprocess calls, the existence check, and the copy into the shared output
directory. -/
structure JobEnv where
  components_ok : Bool
  sbom_ok : Bool
  sbom_file_exists : Bool
  copy_ok : Bool
  copy_error : String

/-- The result dict built by `process_sbom` (lines 124-172).  `written` models
the `shutil.copy2` side effect into the shared output directory: `some p`
exactly when the artifact was placed at `p`.  The wall-clock `elapsed_time`
field is not modelled. -/
structure JobResult where
  sequential_number : Nat
  success : Bool
  message : String
  output_file : String
  written : Option String
deriving DecidableEq, Repr

/-- Lines 124-172: `process_sbom` for one job, with its external effects drawn
from `env`. -/
def process_sbom (env : JobEnv) (sequential_number total_sboms count : Nat)
    (sbom_format output_dir : String) : JobResult :=
  let output_file := generate_unique_filename output_dir sbom_format count sequential_number
  let tag := toString sequential_number ++ "/" ++ toString total_sboms
  if env.components_ok = false then
    { sequential_number, success := false,
      message := "Failed to generate components for SBOM " ++ tag,
      output_file, written := none }
  else if env.sbom_ok = false then
    { sequential_number, success := false,
      message := "Failed to generate SBOM " ++ tag,
      output_file, written := none }
  else if env.sbom_file_exists then
    if env.copy_ok then
      { sequential_number, success := true,
        message := "Successfully generated SBOM " ++ tag,
        output_file, written := some output_file }
    else
      { sequential_number, success := false,
        message := "Error copying SBOM " ++ tag ++ ": " ++ env.copy_error,
        output_file, written := none }
  else
    { sequential_number, success := false,
      message := "SBOM file not found for " ++ tag,
      output_file, written := none }

/-- Lines 190-197 of `generate_parallel_sboms.py`: the submission loop of
`main`.  Job `i` is submitted with `sequential_number = i` for
`i = 1 .. sboms`; each job runs against its own environment `envs i`. -/
def main_jobs (sboms count : Nat) (sbom_format output_dir : String)
    (envs : Nat → JobEnv) : List JobResult :=
  (List.range' 1 sboms).map (fun i =>
    process_sbom (envs i) i sboms count sbom_format output_dir)

/-- A zero-valued random stream, used for concrete evaluations. -/
def gZero : RandState := ⟨fun _ => 0, 0⟩

/-- A one-valued random stream, used for concrete evaluations. -/
def gOne : RandState := ⟨fun _ => 1, 0⟩

theorem randint_ge (a b : Nat) (g : RandState) : a ≤ (randint a b g).1 := by
  simp [randint]

theorem randint_le (a b : Nat) (g : RandState) (h : a ≤ b) : (randint a b g).1 ≤ b := by
  have hm : (next g).1 % (b - a + 1) < b - a + 1 :=
    Nat.mod_lt _ (Nat.succ_pos _)
  simp only [randint]
  omega

theorem getD_mem_of_lt {α : Type} (l : List α) (n : Nat) (d : α) (h : n < l.length) :
    l.getD n d ∈ l := by
  induction l generalizing n with
  | nil => simp at h
  | cons a t ih =>
    cases n with
    | zero => simp [List.getD]
    | succ m =>
      have hm : m < t.length := by simpa using h
      have hstep : (a :: t).getD (m + 1) d = t.getD m d := rfl
      rw [hstep]
      exact List.mem_cons_of_mem _ (ih m hm)

theorem pychoice_mem (l : List String) (g : RandState) (h : l ≠ []) :
    (pychoice l g).1 ∈ l := by
  have hl : 0 < l.length := List.length_pos.mpr h
  have hm : (next g).1 % l.length < l.length := Nat.mod_lt _ hl
  simp only [pychoice]
  exact getD_mem_of_lt _ _ _ hm

theorem natToHex_length (n len : Nat) : (natToHex n len).length = len := by
  simp [natToHex, String.length]

theorem natToHex_hex (n len : Nat) : ∀ ch ∈ (natToHex n len).data, ch ∈ hexDigitChars := by
  intro ch hch
  simp only [natToHex, String.mk, List.mem_map] at hch
  obtain ⟨i, _, rfl⟩ := hch
  exact List.get_mem _ _ _

theorem sha256_hexdigest_length (s : String) : (sha256_hexdigest s).length = 64 :=
  natToHex_length _ _

theorem sha256_hexdigest_hex (s : String) :
    ∀ ch ∈ (sha256_hexdigest s).data, ch ∈ hexDigitChars :=
  natToHex_hex _ _

theorem drawTargets_mem (i : Nat) (hi : 1 ≤ i) :
    ∀ d g, ∀ t ∈ (drawTargets i d g).1, t < i := by
  intro d
  induction d with
  | zero => intro g t ht; simp [drawTargets] at ht
  | succ d ih =>
    intro g t ht
    simp only [drawTargets, List.mem_cons] at ht
    rcases ht with rfl | ht
    · have := randint_le 0 (i - 1) g (Nat.zero_le _)
      omega
    · exact ih _ _ ht

theorem drawTargets_length (i d : Nat) (g : RandState) :
    (drawTargets i d g).1.length = d := by
  induction d generalizing g with
  | zero => simp [drawTargets]
  | succ d ih => simp [drawTargets, ih]

theorem depCount_pos (complexity i : Nat) (g : RandState) :
    1 ≤ (depCount complexity i g).1 := by
  unfold depCount
  split
  · exact randint_ge 1 _ g
  · exact le_refl 1

theorem depCount_le3 (complexity i : Nat) (g : RandState) (hi : 1 ≤ i) :
    (depCount complexity i g).1 ≤ 3 := by
  unfold depCount
  split
  · exact le_trans (randint_le 1 (min 3 i) g (by omega)) (min_le_left 3 i)
  · omega

theorem depCount_le_idx (complexity i : Nat) (g : RandState) (hi : 1 ≤ i) :
    (depCount complexity i g).1 ≤ i := by
  unfold depCount
  split
  · exact le_trans (randint_le 1 (min 3 i) g (by omega)) (min_le_right 3 i)
  · omega

theorem relLoop_mem (complexity : Nat) :
    ∀ r i g, 1 ≤ i → ∀ p ∈ (relLoop complexity i r g).1,
      i ≤ p.1 ∧ p.1 < i + r ∧ p.2 < p.1 := by
  intro r
  induction r with
  | zero => intro i g _ p hp; simp [relLoop] at hp
  | succ r ih =>
    intro i g hi p hp
    simp only [relLoop, List.mem_append, List.mem_map] at hp
    rcases hp with ⟨t, ht, rfl⟩ | hp
    · exact ⟨le_refl i, by omega, drawTargets_mem i hi _ _ t ht⟩
    · have := ih (i + 1) _ (by omega) p hp
      omega

theorem relLoop_ne_nil (complexity i r : Nat) (g : RandState) (hr : 1 ≤ r) :
    (relLoop complexity i r g).1 ≠ [] := by
  match r, hr with
  | r + 1, _ =>
    simp only [relLoop]
    intro hcon
    rcases List.append_eq_nil.mp hcon with ⟨h1, _⟩
    have hlen := drawTargets_length i (depCount complexity i g).1 (depCount complexity i g).2
    have hpos := depCount_pos complexity i g
    rw [List.map_eq_nil_iff] at h1
    rw [h1] at hlen
    simp at hlen
    omega

theorem relLoop_tier2_sources (i r : Nat) (g : RandState) :
    (relLoop 2 i r g).1.map Prod.fst = List.range' i r := by
  induction r generalizing i g with
  | zero => simp [relLoop]
  | succ r ih =>
    simp only [relLoop, depCount]
    norm_num
    simp only [drawTargets, List.map_append, List.map_map]
    rw [List.range'_succ]
    simp [ih]

theorem countP_eq_zero_of_sources_ne {s : Nat} (l : List (Nat × Nat))
    (h : ∀ p ∈ l, p.1 ≠ s) : l.countP (fun p => p.1 == s) = 0 := by
  rw [List.countP_eq_zero]
  intro p hp
  simpa using h p hp

theorem relLoop_tier3_count (complexity : Nat) :
    ∀ r i g s, 1 ≤ i → i ≤ s → s < i + r →
      1 ≤ (relLoop complexity i r g).1.countP (fun p => p.1 == s) ∧
      (relLoop complexity i r g).1.countP (fun p => p.1 == s) ≤ 3 ∧
      (relLoop complexity i r g).1.countP (fun p => p.1 == s) ≤ s := by
  intro r
  induction r with
  | zero => intro i g s _ _ hlt; omega
  | succ r ih =>
    intro i g s hi hle hlt
    simp only [relLoop, List.countP_append]
    by_cases hsi : s = i
    · have hblock :
          (((drawTargets i (depCount complexity i g).1 (depCount complexity i g).2).1.map
            (fun t => (i, t))).countP (fun p => p.1 == s)) =
          (drawTargets i (depCount complexity i g).1 (depCount complexity i g).2).1.length := by
        rw [List.countP_map]
        apply List.countP_eq_length.mpr
        intro t _
        simp [hsi]
      have hrest :
          ((relLoop complexity (i + 1) r
            (drawTargets i (depCount complexity i g).1 (depCount complexity i g).2).2).1.countP
            (fun p => p.1 == s)) = 0 := by
        apply countP_eq_zero_of_sources_ne
        intro p hp
        have := relLoop_mem complexity r (i + 1) _ (by omega) p hp
        omega
      rw [hblock, hrest, drawTargets_length]
      have h1 := depCount_pos complexity i g
      have h2 := depCount_le3 complexity i g hi
      have h3 := depCount_le_idx complexity i g hi
      omega
    · have hblock :
          (((drawTargets i (depCount complexity i g).1 (depCount complexity i g).2).1.map
            (fun t => (i, t))).countP (fun p => p.1 == s)) = 0 := by
        apply countP_eq_zero_of_sources_ne
        intro p hp
        simp only [List.mem_map] at hp
        obtain ⟨t, _, rfl⟩ := hp
        exact fun hcon => hsi hcon.symm
      rw [hblock]
      have := ih (i + 1)
        (drawTargets i (depCount complexity i g).1 (depCount complexity i g).2).2
        s (by omega) (by omega) (by omega)
      omega

theorem cdxDepLoop_mem (complexity : Nat) :
    ∀ r i g, 1 ≤ i → ∀ q ∈ (cdxDepLoop complexity i r g).1,
      i ≤ q.1 ∧ q.1 < i + r ∧ q.2 ≠ [] ∧ (∀ t ∈ q.2, t < q.1) ∧
      1 ≤ q.2.length ∧ q.2.length ≤ 3 ∧ q.2.length ≤ q.1 := by
  intro r
  induction r with
  | zero => intro i g _ q hq; simp [cdxDepLoop] at hq
  | succ r ih =>
    intro i g hi q hq
    simp only [cdxDepLoop] at hq
    have hlen := drawTargets_length i (depCount complexity i g).1 (depCount complexity i g).2
    have hpos := depCount_pos complexity i g
    have h3 := depCount_le3 complexity i g hi
    have hidx := depCount_le_idx complexity i g hi
    have hne : ¬(drawTargets i (depCount complexity i g).1 (depCount complexity i g).2).1.isEmpty := by
      rw [List.isEmpty_iff]
      intro hcon
      rw [hcon] at hlen
      simp at hlen
      omega
    rw [if_neg hne, List.mem_cons] at hq
    rcases hq with rfl | hq
    · refine ⟨le_refl i, by omega, ?_, ?_, ?_, ?_, ?_⟩
      · show (drawTargets i (depCount complexity i g).1 (depCount complexity i g).2).1 ≠ []
        intro hcon
        rw [hcon] at hlen
        simp at hlen
        omega
      · exact fun t ht => drawTargets_mem i hi _ _ t ht
      · show 1 ≤ (drawTargets i (depCount complexity i g).1 (depCount complexity i g).2).1.length
        omega
      · show (drawTargets i (depCount complexity i g).1 (depCount complexity i g).2).1.length ≤ 3
        omega
      · show (drawTargets i (depCount complexity i g).1 (depCount complexity i g).2).1.length ≤ i
        omega
    · obtain ⟨h1, h2, h3b, h4, h5, h6, h7⟩ := ih (i + 1) _ (by omega) q hq
      exact ⟨by omega, by omega, h3b, h4, h5, h6, h7⟩

theorem cdxDepLoop_sources (complexity : Nat) :
    ∀ r i g, 1 ≤ i → (cdxDepLoop complexity i r g).1.map Prod.fst = List.range' i r := by
  intro r
  induction r with
  | zero => intro i g _; simp [cdxDepLoop]
  | succ r ih =>
    intro i g hi
    simp only [cdxDepLoop]
    have hlen := drawTargets_length i (depCount complexity i g).1 (depCount complexity i g).2
    have hpos := depCount_pos complexity i g
    have hne : ¬(drawTargets i (depCount complexity i g).1 (depCount complexity i g).2).1.isEmpty := by
      rw [List.isEmpty_iff]
      intro hcon
      rw [hcon] at hlen
      simp at hlen
      omega
    rw [if_neg hne]
    rw [List.range'_succ]
    simp [ih (i + 1) _ (by omega)]

theorem cdxDepLoop_ne_nil (complexity i r : Nat) (g : RandState) (hi : 1 ≤ i) (hr : 1 ≤ r) :
    (cdxDepLoop complexity i r g).1 ≠ [] := by
  intro hcon
  have := cdxDepLoop_sources complexity r i g hi
  rw [hcon] at this
  have hr' : List.range' i r ≠ [] := by
    intro hcon2
    have := List.range'_eq_nil.mp hcon2
    omega
  exact hr' this.symm

theorem cdxDepLoop_tier2_len :
    ∀ r i g, ∀ q ∈ (cdxDepLoop 2 i r g).1, q.2.length = 1 := by
  intro r
  induction r with
  | zero => intro i g q hq; simp [cdxDepLoop] at hq
  | succ r ih =>
    intro i g q hq
    have hdc : depCount 2 i g = (1, g) := by simp [depCount]
    simp only [cdxDepLoop, hdc, drawTargets, List.isEmpty_cons, Bool.false_eq_true,
      if_false, List.mem_cons] at hq
    rcases hq with rfl | hq
    · rfl
    · exact ih (i + 1) _ q hq

theorem spdxRelPairs_mem (count c : Nat) (g : RandState) :
    ∀ p ∈ (spdxRelPairs count c g).1, 0 < p.1 ∧ p.1 < count ∧ p.2 < p.1 := by
  intro p hp
  unfold spdxRelPairs at hp
  split at hp
  · rename_i hguard
    have := relLoop_mem c (count - 1) 1 g (le_refl 1) p hp
    omega
  · simp at hp

theorem cdxDepPairs_mem (count c : Nat) (g : RandState) :
    ∀ q ∈ (cdxDepPairs count c g).1,
      0 < q.1 ∧ q.1 < count ∧ q.2 ≠ [] ∧ (∀ t ∈ q.2, t < q.1) ∧
      1 ≤ q.2.length ∧ q.2.length ≤ 3 ∧ q.2.length ≤ q.1 := by
  intro q hq
  unfold cdxDepPairs at hq
  split at hq
  · rename_i hguard
    obtain ⟨h1, h2, h3, h4, h5, h6, h7⟩ := cdxDepLoop_mem c (count - 1) 1 g (le_refl 1) q hq
    exact ⟨by omega, by omega, h3, h4, h5, h6, h7⟩
  · simp at hq

theorem spdxRelPairs_tier2_sources (count : Nat) (g : RandState) :
    (spdxRelPairs count 2 g).1.map Prod.fst = List.range' 1 (count - 1) := by
  unfold spdxRelPairs
  split
  · exact relLoop_tier2_sources 1 (count - 1) g
  · rename_i h
    have hc : count - 1 = 0 := by omega
    simp [hc]

theorem cdxDepPairs_tier2_sources (count : Nat) (g : RandState) :
    (cdxDepPairs count 2 g).1.map Prod.fst = List.range' 1 (count - 1) := by
  unfold cdxDepPairs
  split
  · exact cdxDepLoop_sources 2 (count - 1) 1 g (le_refl 1)
  · rename_i h
    have hc : count - 1 = 0 := by omega
    simp [hc]

theorem cdxDepPairs_tier2_len (count : Nat) (g : RandState) :
    ∀ q ∈ (cdxDepPairs count 2 g).1, q.2.length = 1 := by
  intro q hq
  unfold cdxDepPairs at hq
  split at hq
  · exact cdxDepLoop_tier2_len (count - 1) 1 g q hq
  · simp at hq

theorem ecoKeys_ne_nil : ecoKeys ≠ [] := by decide

theorem ecoNames_ne_nil : ∀ e ∈ ecoKeys, ecoNames e ≠ [] := by decide

theorem pick_pair_valid (g : RandState) :
    (pick_pair g).1.1 ∈ ecoKeys ∧ (pick_pair g).1.2 ∈ ecoNames (pick_pair g).1.1 := by
  constructor
  · exact pychoice_mem ecoKeys g ecoKeys_ne_nil
  · exact pychoice_mem _ _ (ecoNames_ne_nil _ (pychoice_mem ecoKeys g ecoKeys_ne_nil))

theorem uniq_retry_valid (existing : List String) :
    ∀ fuel e n g, e ∈ ecoKeys → n ∈ ecoNames e →
      (uniq_retry existing e n fuel g).1.1 ∈ ecoKeys ∧
      (uniq_retry existing e n fuel g).1.2 ∈ ecoNames (uniq_retry existing e n fuel g).1.1 := by
  intro fuel
  induction fuel with
  | zero => intro e n g he hn; exact ⟨he, hn⟩
  | succ f ih =>
    intro e n g he hn
    simp only [uniq_retry]
    split
    · exact ih _ _ _ (pick_pair_valid _).1 (pick_pair_valid _).2
    · exact ⟨he, hn⟩

theorem get_random_component_valid (ex : List String) (c : Nat) (g : RandState) :
    (get_random_component ex c g).1.1.ecosystem ∈ ecoKeys ∧
    (get_random_component ex c g).1.1.name ∈
      ecoNames (get_random_component ex c g).1.1.ecosystem := by
  simp only [get_random_component]
  split
  · exact uniq_retry_valid ex 10 _ _ _ (pick_pair_valid g).1 (pick_pair_valid g).2
  · exact pick_pair_valid g

theorem get_random_component_purl (ex : List String) (c : Nat) (g : RandState) :
    (get_random_component ex c g).1.1.purl =
      generate_purl (get_random_component ex c g).1.1.ecosystem
        (get_random_component ex c g).1.1.name
        (get_random_component ex c g).1.1.version := rfl

theorem purl_template (e n v : String) (he : e ∈ ecoKeys) (hn : n ∈ ecoNames e) :
    (e = "maven" → ∃ grp art, n = grp ++ ":" ++ art ∧
       generate_purl e n v = "pkg:maven/" ++ grp ++ "/" ++ art ++ "@" ++ v) ∧
    (e ≠ "maven" → generate_purl e n v = "pkg:" ++ e ++ "/" ++ n ++ "@" ++ v) := by
  have he' : e = "npm" ∨ e = "maven" ∨ e = "pypi" ∨ e = "golang" ∨ e = "nuget" := by
    simpa [ecoKeys, ECOSYSTEMS] using he
  rcases he' with rfl | rfl | rfl | rfl | rfl
  · exact ⟨fun h => absurd h (by decide), fun _ => rfl⟩
  · constructor
    · intro _
      have hmav : ecoNames "maven" = ["org.springframework:spring-core",
          "com.fasterxml.jackson.core:jackson-databind",
          "org.apache.commons:commons-lang3", "org.hibernate:hibernate-core",
          "com.google.guava:guava", "junit:junit", "log4j:log4j",
          "ch.qos.logback:logback-classic"] := rfl
      rw [hmav] at hn
      fin_cases hn
      · exact ⟨"org.springframework", "spring-core", rfl, rfl⟩
      · exact ⟨"com.fasterxml.jackson.core", "jackson-databind", rfl, rfl⟩
      · exact ⟨"org.apache.commons", "commons-lang3", rfl, rfl⟩
      · exact ⟨"org.hibernate", "hibernate-core", rfl, rfl⟩
      · exact ⟨"com.google.guava", "guava", rfl, rfl⟩
      · exact ⟨"junit", "junit", rfl, rfl⟩
      · exact ⟨"log4j", "log4j", rfl, rfl⟩
      · exact ⟨"ch.qos.logback", "logback-classic", rfl, rfl⟩
    · intro h
      exact absurd rfl h
  · exact ⟨fun h => absurd h (by decide), fun _ => rfl⟩
  · exact ⟨fun h => absurd h (by decide), fun _ => rfl⟩
  · exact ⟨fun h => absurd h (by decide), fun _ => rfl⟩

theorem cdxMakeComponent_extRefs (c : Nat) (ex : List String) (g : RandState) :
    ∃ s, (cdxMakeComponent c ex g).1.externalReferences =
      [{ url := "", hashes := [{ alg := "SHA-1", content := sha256_hexdigest s }],
         type := "build-meta" }] :=
  ⟨_, rfl⟩

theorem cdxCompLoop_extRefs (c : Nat) :
    ∀ r ex g, ∀ comp ∈ (cdxCompLoop c r ex g).1,
      ∃ s, comp.externalReferences =
        [{ url := "", hashes := [{ alg := "SHA-1", content := sha256_hexdigest s }],
           type := "build-meta" }] := by
  intro r
  induction r with
  | zero => intro ex g comp hc; simp [cdxCompLoop] at hc
  | succ r ih =>
    intro ex g comp hc
    simp only [cdxCompLoop, List.mem_cons] at hc
    rcases hc with rfl | hc
    · exact cdxMakeComponent_extRefs c ex g
    · exact ih _ _ comp hc

theorem cdxMakeComponent_bomRef (c : Nat) (ex : List String) (g : RandState) :
    ∃ e n v, (cdxMakeComponent c ex g).1.version = v ∧
      (cdxMakeComponent c ex g).1.purl = generate_purl e n v ∧
      (cdxMakeComponent c ex g).1.bomRef =
        generate_purl e n v ++ "?package-id=" ++ strTake (md5_hexdigest (n ++ ":" ++ v)) 16 :=
  ⟨(get_random_component ex c g).1.1.ecosystem, (get_random_component ex c g).1.1.name,
   (get_random_component ex c g).1.1.version, rfl, rfl, rfl⟩

theorem cdxCompLoop_bomRef (c : Nat) :
    ∀ r ex g, ∀ comp ∈ (cdxCompLoop c r ex g).1,
      ∃ e n v, comp.version = v ∧ comp.purl = generate_purl e n v ∧
        comp.bomRef =
          generate_purl e n v ++ "?package-id=" ++ strTake (md5_hexdigest (n ++ ":" ++ v)) 16 := by
  intro r
  induction r with
  | zero => intro ex g comp hc; simp [cdxCompLoop] at hc
  | succ r ih =>
    intro ex g comp hc
    simp only [cdxCompLoop, List.mem_cons] at hc
    rcases hc with rfl | hc
    · exact cdxMakeComponent_bomRef c ex g
    · exact ih _ _ comp hc

theorem process_sbom_spec (env : JobEnv) (n J count : Nat) (fmt dir : String) :
    (process_sbom env n J count fmt dir).sequential_number = n ∧
    (process_sbom env n J count fmt dir).output_file =
      generate_unique_filename dir fmt count n ∧
    ((process_sbom env n J count fmt dir).success ↔
      (process_sbom env n J count fmt dir).written =
        some (generate_unique_filename dir fmt count n)) ∧
    (¬(process_sbom env n J count fmt dir).success →
      (process_sbom env n J count fmt dir).written = none) := by
  rcases env with ⟨cok, sok, fex, cpok, cerr⟩
  cases cok <;> cases sok <;> cases fex <;> cases cpok <;>
    simp [process_sbom]

/-- C1: in every generated document (SPDX or CycloneDX), every emitted
dependency relationship has target index strictly less than its source index,
both indices lie in `[0, N)`, there are no self-loops, and the component at
index 0 never appears as a relationship source; the dependency relation is
therefore acyclic by construction. -/
theorem claim_C1_dag_by_construction :
    (∀ count c g, ∀ p ∈ (spdxRelPairs count c g).1,
       p.2 < p.1 ∧ 0 < p.1 ∧ p.1 < count ∧ p.2 < count ∧ p.1 ≠ p.2) ∧
    (∀ count c g, ∀ q ∈ (cdxDepPairs count c g).1,
       0 < q.1 ∧ q.1 < count ∧ ∀ t ∈ q.2, t < q.1 ∧ t < count ∧ t ≠ q.1) ∧
    (∀ count c now u g,
       ∀ rel ∈ (generate_spdx_sbom count c now u g).1.relationships.getD [],
         ∃ s t, 0 < s ∧ s < count ∧ t < s ∧ rel = mkSpdxRel (s, t)) ∧
    (∀ count c now u g,
       ∀ dep ∈ (generate_cyclonedx_sbom count c now u g).1.dependencies.getD [],
         ∃ s ts, 0 < s ∧ s < count ∧ ts ≠ [] ∧ (∀ t ∈ ts, t < s) ∧
           dep = { ref := bomRefAt (generate_cyclonedx_sbom count c now u g).1.components s,
                   dependsOn :=
                     ts.map (bomRefAt (generate_cyclonedx_sbom count c now u g).1.components) }) := by
  refine ⟨?_, ?_, ?_, ?_⟩
  · intro count c g p hp
    have := spdxRelPairs_mem count c g p hp
    exact ⟨by omega, by omega, by omega, by omega, by omega⟩
  · intro count c g q hq
    obtain ⟨h1, h2, _, h4, _⟩ := cdxDepPairs_mem count c g q hq
    refine ⟨h1, h2, ?_⟩
    intro t ht
    have := h4 t ht
    exact ⟨by omega, by omega, by omega⟩
  · intro count c now u g rel hrel
    simp only [generate_spdx_sbom] at hrel
    split at hrel
    · simp only [Option.getD_some, List.mem_map] at hrel
      obtain ⟨p, hp, rfl⟩ := hrel
      have := spdxRelPairs_mem count c _ p hp
      exact ⟨p.1, p.2, by omega, by omega, by omega, rfl⟩
    · simp at hrel
  · intro count c now u g dep hdep
    simp only [generate_cyclonedx_sbom] at hdep ⊢
    split at hdep
    · simp only [Option.getD_some, List.mem_map] at hdep
      obtain ⟨q, hq, rfl⟩ := hdep
      obtain ⟨h1, h2, h3, h4, _⟩ := cdxDepPairs_mem count c _ q hq
      exact ⟨q.1, q.2, h1, h2, h3, h4, rfl⟩
    · simp at hdep

/-- Witness for C1: in the SPDX document generated from the all-zero stream
with two components at complexity 2, the index pair `(1, 0)` is emitted and
satisfies the claimed bounds. -/
theorem claim_C1_dag_by_construction_witness :
    (1, 0) ∈ (spdxRelPairs 2 2 gZero).1 ∧
    ((1, 0).2 < (1, 0).1 ∧ 0 < (1, 0).1 ∧ (1, 0).1 < 2 ∧ (1, 0).2 < 2 ∧ (1, 0).1 ≠ (1, 0).2) :=
  ⟨by decide, claim_C1_dag_by_construction.1 2 2 gZero (1, 0) (by decide)⟩

/-- C2: the tier rule for relationship generation.  No `relationships` /
`dependencies` key is present when the complexity tier is 1 or the component
count is at most 1; otherwise the key is present, at tier 2 each source index
`1 .. count-1` gets exactly one dependency slot (in order), at tier 3 the
number of slots for source `s` is an integer in `[1, min 3 s]` drawn by
`randint`, and duplicate targets for the same source are kept (witnessed by a
stream on which the pair `(2, 1)` is emitted twice). -/
theorem claim_C2_tier_rule :
    (∀ count c now u g, c ≤ 1 ∨ count ≤ 1 →
       (generate_spdx_sbom count c now u g).1.relationships = none ∧
       (generate_cyclonedx_sbom count c now u g).1.dependencies = none) ∧
    (∀ count c now u g, 1 < c → 1 < count →
       (generate_spdx_sbom count c now u g).1.relationships ≠ none ∧
       (generate_cyclonedx_sbom count c now u g).1.dependencies ≠ none) ∧
    (∀ count g, (spdxRelPairs count 2 g).1.map Prod.fst = List.range' 1 (count - 1)) ∧
    (∀ count g, (cdxDepPairs count 2 g).1.map Prod.fst = List.range' 1 (count - 1) ∧
       ∀ q ∈ (cdxDepPairs count 2 g).1, q.2.length = 1) ∧
    (∀ count c g s, 2 < c → 1 ≤ s → s < count →
       1 ≤ (spdxRelPairs count c g).1.countP (fun p => p.1 == s) ∧
       (spdxRelPairs count c g).1.countP (fun p => p.1 == s) ≤ min 3 s) ∧
    (∀ count c g, 2 < c → ∀ q ∈ (cdxDepPairs count c g).1,
       1 ≤ q.2.length ∧ q.2.length ≤ min 3 q.1) ∧
    (spdxRelPairs 3 3 gOne).1 = [(1, 0), (2, 1), (2, 1)] := by
  refine ⟨?_, ?_, ?_, ?_, ?_, ?_, by decide⟩
  · intro count c now u g h
    constructor
    · simp only [generate_spdx_sbom]
      split
      · rename_i hcond
        exfalso
        apply hcond.2
        unfold spdxRelPairs
        rw [if_neg (by omega : ¬(c > 1 ∧ count > 1))]
        rfl
      · rfl
    · simp only [generate_cyclonedx_sbom]
      split
      · rename_i hcond
        exfalso
        apply hcond.2
        unfold cdxDepPairs
        rw [if_neg (by omega : ¬(c > 1 ∧ count > 1))]
        rfl
      · rfl
  · intro count c now u g hc hcount
    constructor
    · simp only [generate_spdx_sbom]
      split
      · exact fun hcon => Option.some_ne_none _ hcon
      · rename_i hcond
        exfalso
        apply hcond
        refine ⟨by omega, ?_⟩
        rw [List.isEmpty_iff]
        unfold spdxRelPairs
        rw [if_pos (by omega : c > 1 ∧ count > 1)]
        exact relLoop_ne_nil c 1 (count - 1) _ (by omega)
    · simp only [generate_cyclonedx_sbom]
      split
      · exact fun hcon => Option.some_ne_none _ hcon
      · rename_i hcond
        exfalso
        apply hcond
        refine ⟨by omega, ?_⟩
        rw [List.isEmpty_iff, List.map_eq_nil_iff]
        unfold cdxDepPairs
        rw [if_pos (by omega : c > 1 ∧ count > 1)]
        exact cdxDepLoop_ne_nil c 1 (count - 1) _ (le_refl 1) (by omega)
  · exact fun count g => spdxRelPairs_tier2_sources count g
  · exact fun count g => ⟨cdxDepPairs_tier2_sources count g, cdxDepPairs_tier2_len count g⟩
  · intro count c g s hc hs hcount
    have key : 1 ≤ (spdxRelPairs count c g).1.countP (fun p => p.1 == s) ∧
        (spdxRelPairs count c g).1.countP (fun p => p.1 == s) ≤ 3 ∧
        (spdxRelPairs count c g).1.countP (fun p => p.1 == s) ≤ s := by
      unfold spdxRelPairs
      rw [if_pos (by omega : c > 1 ∧ count > 1)]
      exact relLoop_tier3_count c (count - 1) 1 g s (le_refl 1) hs (by omega)
    exact ⟨key.1, le_min key.2.1 key.2.2⟩
  · intro count c g hc q hq
    obtain ⟨h1, _, _, _, h5, h6, h7⟩ := cdxDepPairs_mem count c g q hq
    exact ⟨h5, le_min h6 h7⟩

/-- Witness for C2: concrete instances of the tier rule — no key at tier 1
with five components, key present at tier 2 with two components. -/
theorem claim_C2_tier_rule_witness :
    ((generate_spdx_sbom 5 1 "t" "u" gZero).1.relationships = none ∧
     (generate_cyclonedx_sbom 5 1 "t" "u" gZero).1.dependencies = none) ∧
    ((generate_spdx_sbom 2 2 "t" "u" gZero).1.relationships ≠ none ∧
     (generate_cyclonedx_sbom 2 2 "t" "u" gZero).1.dependencies ≠ none) ∧
    (1 ≤ (spdxRelPairs 3 3 gZero).1.countP (fun p => p.1 == 2) ∧
     (spdxRelPairs 3 3 gZero).1.countP (fun p => p.1 == 2) ≤ min 3 2) :=
  ⟨claim_C2_tier_rule.1 5 1 "t" "u" gZero (Or.inl (by decide)),
   claim_C2_tier_rule.2.1 2 2 "t" "u" gZero (by decide) (by decide),
   claim_C2_tier_rule.2.2.2.2.1 3 3 gZero 2 (by decide) (by decide) (by decide)⟩

/-- C3 (code bug): the XML projection fails on every document the CycloneDX
assembler produces.  The assembler stores `metadata.tools` as the object
`{"components": [...]}` (CycloneDX 1.6 shape), but the projector iterates
`metadata["tools"]` as if it were a list of tool records — iterating the dict
yields its key string "components", and calling `.items()` on a string raises
`AttributeError`, so no XML tree is ever produced for a generated document. -/
theorem claim_C3_xml_projection_fails_on_tools (count c : Nat) (now u : String) (g : RandState) :
    cyclonedx_json_to_xml (cdxToJson (generate_cyclonedx_sbom count c now u g).1) =
      Except.error "str object has no attribute items" := rfl

theorem next_idx (g : RandState) : (next g).2.idx = g.idx + 1 := rfl

theorem pick_pair_idx (g : RandState) : (pick_pair g).2.idx = g.idx + 2 := rfl

theorem generate_version_idx (g : RandState) : (generate_version g).2.idx = g.idx + 17 := rfl

/-- C4: the uniqueness-retry behaviour of `get_random_component`.  At tier 1
no retry happens: the returned pair is the very first pick and exactly 19
stream values are consumed (2 for the pick, 17 for the version).  The retry
loop consumes at most 2 values per retry for at most 10 retries.  And when
every pick collides with the seen set, the duplicate is accepted after the 10
retries and a component is still returned (witnessed on the all-zero stream
with "npm:react" already seen). -/
theorem claim_C4_uniqueness_retry :
    (∀ existing c g, c ≤ 1 →
       ((get_random_component existing c g).1.1.ecosystem,
        (get_random_component existing c g).1.1.name) = (pick_pair g).1 ∧
       (get_random_component existing c g).2.idx = g.idx + 19) ∧
    (∀ existing fuel e n g,
       (uniq_retry existing e n fuel g).2.idx ≤ g.idx + 2 * fuel) ∧
    ((get_random_component ["npm:react"] 2 gZero).1.1.ecosystem = "npm" ∧
     (get_random_component ["npm:react"] 2 gZero).1.1.name = "react" ∧
     "npm:react" ∈ ["npm:react"]) := by
  refine ⟨?_, ?_, by decide, by decide, by decide⟩
  · intro existing c g hc
    simp only [get_random_component]
    rw [if_neg (by omega : ¬c > 1)]
    refine ⟨rfl, ?_⟩
    rw [generate_version_idx, pick_pair_idx]
  · intro existing fuel
    induction fuel with
    | zero => intro e n g; simp [uniq_retry]
    | succ f ih =>
      intro e n g
      simp only [uniq_retry]
      split
      · have h1 := ih (pick_pair g).1.1 (pick_pair g).1.2 (pick_pair g).2
        have h2 := pick_pair_idx g
        omega
      · simp

/-- Witness for C4: at tier 0 (≤ 1) the component returned from the all-zero
stream is the first pick and consumes exactly 19 stream values. -/
theorem claim_C4_uniqueness_retry_witness :
    (0 : Nat) ≤ 1 ∧
    ((get_random_component [] 0 gZero).1.1.ecosystem,
     (get_random_component [] 0 gZero).1.1.name) = (pick_pair gZero).1 ∧
    (get_random_component [] 0 gZero).2.idx = gZero.idx + 19 :=
  ⟨by decide, (claim_C4_uniqueness_retry.1 [] 0 gZero (by decide)).1,
   (claim_C4_uniqueness_retry.1 [] 0 gZero (by decide)).2⟩

/-- C5: every component of a generated CycloneDX document, at every
complexity tier, carries exactly one external reference whose single hash
entry is labelled "SHA-1" while its content is the SHA-256 hex digest of a
random-float string — 64 hex characters. -/
theorem claim_C5_sha1_label_mismatch (count c : Nat) (now u : String) (g : RandState) :
    ∀ comp ∈ (generate_cyclonedx_sbom count c now u g).1.components,
      ∃ s, comp.externalReferences =
        [{ url := "", hashes := [{ alg := "SHA-1", content := sha256_hexdigest s }],
           type := "build-meta" }] ∧
        (sha256_hexdigest s).length = 64 ∧
        ∀ ch ∈ (sha256_hexdigest s).data, ch ∈ hexDigitChars := by
  intro comp hc
  have hcomps : (generate_cyclonedx_sbom count c now u g).1.components =
      (cdxCompLoop c count [] g).1 := rfl
  rw [hcomps] at hc
  obtain ⟨s, hs⟩ := cdxCompLoop_extRefs c count [] g comp hc
  exact ⟨s, hs, sha256_hexdigest_length s, sha256_hexdigest_hex s⟩

/-- Witness for C5: the single component of a concrete tier-1 document has
the SHA-1-labelled, SHA-256-valued external reference. -/
theorem claim_C5_sha1_label_mismatch_witness :
    (generate_cyclonedx_sbom 1 1 "t" "u" gZero).1.components.getD 0 cdxDefault ∈
      (generate_cyclonedx_sbom 1 1 "t" "u" gZero).1.components ∧
    ∃ s, ((generate_cyclonedx_sbom 1 1 "t" "u" gZero).1.components.getD 0 cdxDefault).externalReferences =
        [{ url := "", hashes := [{ alg := "SHA-1", content := sha256_hexdigest s }],
           type := "build-meta" }] ∧
        (sha256_hexdigest s).length = 64 ∧
        ∀ ch ∈ (sha256_hexdigest s).data, ch ∈ hexDigitChars :=
  ⟨by decide, claim_C5_sha1_label_mismatch 1 1 "t" "u" gZero _ (by decide)⟩

/-- C6: the batch orchestrator assigns job numbers `1..J` at submission time;
job `n` reports the deterministic output path
`<dir>/sbom_<format>_<count>_<n>.json`, writes an artifact exactly at that
path and only on success, and the reported paths are independent of the
per-job environments (hence of scheduling and completion order). -/
theorem claim_C6_deterministic_filenames (J count : Nat) (fmt dir : String)
    (envs : Nat → JobEnv) :
    (∀ r ∈ main_jobs J count fmt dir envs,
       1 ≤ r.sequential_number ∧ r.sequential_number ≤ J ∧
       r.output_file = pathJoin dir
         ("sbom_" ++ fmt ++ "_" ++ toString count ++ "_" ++
          toString r.sequential_number ++ ".json") ∧
       (r.success ↔ r.written = some r.output_file) ∧
       (¬r.success → r.written = none)) ∧
    ((main_jobs J count fmt dir envs).map (fun r => r.sequential_number) =
       List.range' 1 J) ∧
    (∀ envs2, (main_jobs J count fmt dir envs).map (fun r => r.output_file) =
       (main_jobs J count fmt dir envs2).map (fun r => r.output_file)) := by
  refine ⟨?_, ?_, ?_⟩
  · intro r hr
    simp only [main_jobs, List.mem_map] at hr
    obtain ⟨i, hi, rfl⟩ := hr
    have hrange := List.mem_range'_1.mp hi
    obtain ⟨hseq, hout, hiff, hnone⟩ := process_sbom_spec (envs i) i J count fmt dir
    refine ⟨by omega, by omega, ?_, ?_, hnone⟩
    · rw [hout, hseq]
      rfl
    · rw [hiff, hout]
  · simp only [main_jobs, List.map_map]
    have hcong : ∀ i ∈ List.range' 1 J,
        ((fun r => r.sequential_number) ∘
          (fun i => process_sbom (envs i) i J count fmt dir)) i = id i := by
      intro i _
      exact (process_sbom_spec (envs i) i J count fmt dir).1
    rw [List.map_congr_left hcong, List.map_id]
  · intro envs2
    simp only [main_jobs, List.map_map]
    apply List.map_congr_left
    intro i _
    have h1 := (process_sbom_spec (envs i) i J count fmt dir).2.1
    have h2 := (process_sbom_spec (envs2 i) i J count fmt dir).2.1
    simp only [Function.comp]
    rw [h1, h2]

/-- Witness for C6: the single job of a one-job batch reports the
deterministic filename and writes only on success. -/
theorem claim_C6_deterministic_filenames_witness :
    (process_sbom ⟨true, true, true, true, ""⟩ 1 1 7 "cyclonedx" "sboms") ∈
      main_jobs 1 7 "cyclonedx" "sboms" (fun _ => ⟨true, true, true, true, ""⟩) ∧
    (1 ≤ (process_sbom ⟨true, true, true, true, ""⟩ 1 1 7 "cyclonedx" "sboms").sequential_number ∧
     (process_sbom ⟨true, true, true, true, ""⟩ 1 1 7 "cyclonedx" "sboms").sequential_number ≤ 1 ∧
     (process_sbom ⟨true, true, true, true, ""⟩ 1 1 7 "cyclonedx" "sboms").output_file =
       pathJoin "sboms" ("sbom_" ++ "cyclonedx" ++ "_" ++ toString 7 ++ "_" ++
         toString (process_sbom ⟨true, true, true, true, ""⟩ 1 1 7 "cyclonedx" "sboms").sequential_number ++ ".json") ∧
     ((process_sbom ⟨true, true, true, true, ""⟩ 1 1 7 "cyclonedx" "sboms").success ↔
       (process_sbom ⟨true, true, true, true, ""⟩ 1 1 7 "cyclonedx" "sboms").written =
         some (process_sbom ⟨true, true, true, true, ""⟩ 1 1 7 "cyclonedx" "sboms").output_file) ∧
     (¬(process_sbom ⟨true, true, true, true, ""⟩ 1 1 7 "cyclonedx" "sboms").success →
       (process_sbom ⟨true, true, true, true, ""⟩ 1 1 7 "cyclonedx" "sboms").written = none)) :=
  ⟨by decide,
   claim_C6_deterministic_filenames 1 7 "cyclonedx" "sboms" (fun _ => ⟨true, true, true, true, ""⟩)
     |>.1 _ (by decide)⟩

/-- C7: a synthesized component's purl follows the ecosystem templates: maven
names split on ":" into group and artifact giving
`pkg:maven/<group>/<artifact>@<version>`; every other catalog ecosystem gives
`pkg:<ecosystem>/<name>@<version>`. -/
theorem claim_C7_purl_templates (existing : List String) (c : Nat) (g : RandState) :
    ((get_random_component existing c g).1.1.ecosystem = "maven" →
       ∃ grp art, (get_random_component existing c g).1.1.name = grp ++ ":" ++ art ∧
         (get_random_component existing c g).1.1.purl =
           "pkg:maven/" ++ grp ++ "/" ++ art ++ "@" ++
             (get_random_component existing c g).1.1.version) ∧
    ((get_random_component existing c g).1.1.ecosystem ≠ "maven" →
       (get_random_component existing c g).1.1.purl =
         "pkg:" ++ (get_random_component existing c g).1.1.ecosystem ++ "/" ++
         (get_random_component existing c g).1.1.name ++ "@" ++
         (get_random_component existing c g).1.1.version) := by
  obtain ⟨he, hn⟩ := get_random_component_valid existing c g
  rw [get_random_component_purl]
  exact purl_template _ _ _ he hn

/-- Witness for C7: the component drawn from the all-zero stream lives in the
npm ecosystem and its purl instantiates the non-maven template. -/
theorem claim_C7_purl_templates_witness :
    (get_random_component [] 1 gZero).1.1.ecosystem ≠ "maven" ∧
    (get_random_component [] 1 gZero).1.1.purl =
      "pkg:" ++ (get_random_component [] 1 gZero).1.1.ecosystem ++ "/" ++
      (get_random_component [] 1 gZero).1.1.name ++ "@" ++
      (get_random_component [] 1 gZero).1.1.version :=
  ⟨by decide, (claim_C7_purl_templates [] 1 gZero).2 (by decide)⟩

/-- C8: requesting XML output together with SPDX format does not fail: the
CLI warns, falls back to JSON, completes generation and saving, and exits
with code 0. -/
theorem claim_C8_xml_spdx_fallback (count c : Nat) (now u : String) (g : RandState) :
    (main_run { format := "spdx", count := count, complexity := c, output := "xml" } now u g).warned = true ∧
    (main_run { format := "spdx", count := count, complexity := c, output := "xml" } now u g).used_output = "json" ∧
    (main_run { format := "spdx", count := count, complexity := c, output := "xml" } now u g).saved_path =
      some (pathJoin "sboms"
        ("synthetic_spdx_" ++ toString count ++ "_c" ++ toString c ++ "." ++ "json")) ∧
    (main_run { format := "spdx", count := count, complexity := c, output := "xml" } now u g).printed_error = none ∧
    (main_run { format := "spdx", count := count, complexity := c, output := "xml" } now u g).exit_code = 0 :=
  ⟨rfl, rfl, rfl, rfl, rfl⟩

/-- C9: a CycloneDX component's bom-ref is a pure function of its
(ecosystem, name, version) triple — the purl followed by "?package-id=" and
the first 16 hex characters of the MD5 digest of "name:version" — so two
components sharing the triple get identical bom-refs; on the all-zero stream
at tier 2 the two components of a two-component document indeed collide, so
bom-ref uniqueness is not guaranteed. -/
theorem claim_C9_bomref_pure_function :
    (∀ count c now u g, ∀ comp ∈ (generate_cyclonedx_sbom count c now u g).1.components,
       ∃ e n v, comp.version = v ∧ comp.purl = generate_purl e n v ∧
         comp.bomRef = generate_purl e n v ++ "?package-id=" ++
           strTake (md5_hexdigest (n ++ ":" ++ v)) 16) ∧
    (bomRefAt (generate_cyclonedx_sbom 2 2 "t" "u" gZero).1.components 0 =
       bomRefAt (generate_cyclonedx_sbom 2 2 "t" "u" gZero).1.components 1 ∧
     (generate_cyclonedx_sbom 2 2 "t" "u" gZero).1.components.length = 2) := by
  refine ⟨?_, by decide, by decide⟩
  intro count c now u g comp hc
  have hcomps : (generate_cyclonedx_sbom count c now u g).1.components =
      (cdxCompLoop c count [] g).1 := rfl
  rw [hcomps] at hc
  exact cdxCompLoop_bomRef c count [] g comp hc

/-- Witness for C9: the bom-ref formula instantiated on the component of a
concrete one-component document. -/
theorem claim_C9_bomref_pure_function_witness :
    (generate_cyclonedx_sbom 1 1 "t" "u" gZero).1.components.getD 0 cdxDefault ∈
      (generate_cyclonedx_sbom 1 1 "t" "u" gZero).1.components ∧
    ∃ e n v, ((generate_cyclonedx_sbom 1 1 "t" "u" gZero).1.components.getD 0 cdxDefault).version = v ∧
      ((generate_cyclonedx_sbom 1 1 "t" "u" gZero).1.components.getD 0 cdxDefault).purl =
        generate_purl e n v ∧
      ((generate_cyclonedx_sbom 1 1 "t" "u" gZero).1.components.getD 0 cdxDefault).bomRef =
        generate_purl e n v ++ "?package-id=" ++ strTake (md5_hexdigest (n ++ ":" ++ v)) 16 :=
  ⟨by decide, claim_C9_bomref_pure_function.1 1 1 "t" "u" gZero _ (by decide)⟩

/-- C10: every exception inside the generation-and-save block of the
synthetic CLI is caught by the top-level handler: the exit code is 0 on every
input, any error is reported as a printed message with nothing saved, and in
particular the CycloneDX-with-XML run raises (the projector's tools
AttributeError) yet still exits with code 0. -/
theorem claim_C10_exceptions_caught :
    (∀ args now u g, (main_run args now u g).exit_code = 0) ∧
    (∀ args now u g e,
       run_generation args (effective_output args) now u g = .error e →
         (main_run args now u g).printed_error = some ("Error generating SBOM: " ++ e) ∧
         (main_run args now u g).saved_path = none ∧
         (main_run args now u g).exit_code = 0) ∧
    (∀ count c now u g,
       run_generation { format := "cyclonedx", count := count, complexity := c, output := "xml" }
         (effective_output { format := "cyclonedx", count := count, complexity := c, output := "xml" })
         now u g = .error "str object has no attribute items") := by
  refine ⟨?_, ?_, ?_⟩
  · intro args now u g
    cases hrg : run_generation args (effective_output args) now u g <;>
      simp [main_run, hrg]
  · intro args now u g e hrg
    simp [main_run, hrg]
  · intro count c now u g
    rfl

/-- Witness for C10: the concrete CycloneDX-with-XML run prints the caught
error and exits with code 0. -/
theorem claim_C10_exceptions_caught_witness :
    (main_run { format := "cyclonedx", count := 0, complexity := 1, output := "xml" } "t" "u" gZero).printed_error =
      some ("Error generating SBOM: " ++ "str object has no attribute items") ∧
    (main_run { format := "cyclonedx", count := 0, complexity := 1, output := "xml" } "t" "u" gZero).exit_code = 0 :=
  ⟨(claim_C10_exceptions_caught.2.1 _ "t" "u" gZero _
      (claim_C10_exceptions_caught.2.2 0 1 "t" "u" gZero)).1,
   claim_C10_exceptions_caught.1 _ "t" "u" gZero⟩
